import Mathlib

/-!
Shallow embedding of the campaign status machine, budget ledger, dayparting
evaluator and batch jobs of the brand-budget-planner repository
(`src/budget_planner/models.py`, `tasks.py`, `utils.py`,
`commands/reset_monthly_budgets.py`, `choices.py`).

Conventions of the embedding:
* Monetary `Decimal` values have two decimal places; they are embedded as
  integer cents (`Int`), which is exact decimal arithmetic.
* `datetime` values are split into the projections the code actually reads:
  the calendar date (`Date`, compared chronologically, i.e. lexicographically
  on year/month/day like Python `datetime.date`), the lower-cased English
  weekday name `strftime("%A").lower()`, and the `strftime("%H:%M")` string.
* Django's `auto_now` / `auto_now_add` markers are embedded as an abstract
  `tick : Nat` supplied by the caller.
* Python code that can raise is embedded in `Except String`; the string is
  the exception class of the raise site.
* Database rows live in a `World` (lists of `Brand` / `Campaign` / `AdSpend`
  rows); `save(update_fields=[...])` writes back exactly the listed columns
  of the row with the object's primary key.
-/

namespace BudgetPlanner

/-- The `CampaignStatus` text choices of `choices.py`. -/
inductive CampaignStatus where
  | ACTIVE
  | PAUSED
  | BUDGET_EXCEEDED
  | DAYPARTING_PAUSED
  | INACTIVE
deriving DecidableEq, Repr

/-- A calendar date; Python `datetime.date` compares chronologically. -/
structure Date where
  year : Nat
  month : Nat
  day : Nat
deriving DecidableEq, Repr

/-- Chronological (lexicographic) `<=` on dates, as Python compares dates. -/
def Date.ble (a b : Date) : Bool :=
  a.year.blt b.year ||
    (a.year == b.year &&
      (a.month.blt b.month || (a.month == b.month && a.day.ble b.day)))

/-- `now.replace(day=1).date()`: the first day of the current month. -/
def Date.firstOfMonth (d : Date) : Date :=
  { d with day := 1 }

/-- The projections of `timezone.now()` that the code reads. -/
structure Now where
  date : Date
  weekday : String
  hhmm : String
deriving DecidableEq, Repr

/-- Python string `<=` is lexicographic on code points. -/
def lexLe : List Char → List Char → Bool
  | [], _ => true
  | _ :: _, [] => false
  | c :: cs, d :: ds =>
    if c < d then true else if d < c then false else lexLe cs ds

/-- Python string comparison `a <= b`. -/
def pyLe (a b : String) : Bool :=
  lexLe a.data b.data

/-- One JSON window object of a dayparting schedule.  The JSON keys are
`"start"` and `"end"`; `end` is a Lean keyword, so the `"end"` key is embedded
as the field `stop`.  The fields are `Option` because a JSON object may lack
either key (subscripting a missing key raises `KeyError`). -/
structure DaypartingWindow where
  start : Option String
  stop : Option String
deriving DecidableEq, Repr

/-- The JSON dayparting schedule: a mapping from weekday-name keys to lists of
window objects, embedded as an association list. -/
abbrev DaypartingSchedule := List (String × List DaypartingWindow)

/-- Python `dict.get(key, [])` on the schedule. -/
def dictGet (sched : DaypartingSchedule) (k : String) : List DaypartingWindow :=
  match sched.lookup k with
  | some ws => ws
  | none => []

/-- A `Brand` row (`models.py`). -/
structure Brand where
  id : Nat
  name : String
  daily_budget : Int
  monthly_budget : Int
  daily_spend : Int
  monthly_spend : Int
  is_active : Bool
  updated_at : Nat
deriving DecidableEq, Repr

/-- `Brand.daily_budget_exceeded`: `self.daily_spend >= self.daily_budget`. -/
def Brand.daily_budget_exceeded (b : Brand) : Bool :=
  decide (b.daily_budget ≤ b.daily_spend)

/-- `Brand.monthly_budget_exceeded`: `self.monthly_spend >= self.monthly_budget`. -/
def Brand.monthly_budget_exceeded (b : Brand) : Bool :=
  decide (b.monthly_budget ≤ b.monthly_spend)

/-- `Brand.daily_budget_remaining`: `max(0, daily_budget - daily_spend)`. -/
def Brand.daily_budget_remaining (b : Brand) : Int :=
  max 0 (b.daily_budget - b.daily_spend)

/-- `Brand.monthly_budget_remaining`: `max(0, monthly_budget - monthly_spend)`. -/
def Brand.monthly_budget_remaining (b : Brand) : Int :=
  max 0 (b.monthly_budget - b.monthly_spend)

/-- A `Campaign` row (`models.py`); `brand_id` is the foreign key. -/
structure Campaign where
  id : Nat
  brand_id : Nat
  name : String
  status : CampaignStatus
  daily_spend : Int
  monthly_spend : Int
  dayparting_enabled : Bool
  dayparting_schedule : DaypartingSchedule
  updated_at : Nat
deriving DecidableEq, Repr

/-- An `AdSpend` row (`models.py`); only the date part of the `timestamp` is
read by the aggregation filters, so that is what the embedding keeps. -/
structure AdSpend where
  id : Nat
  campaign_id : Nat
  amount : Int
  timestamp_date : Date
  description : String
deriving DecidableEq, Repr

/-- One window test `window["start"] <= current_time <= window["end"]`: Python first
subscripts `"start"` (raising `KeyError` if absent), compares; the chained
comparison only subscripts `"end"` when the first comparison held. -/
def windowCheck (current_time : String) (w : DaypartingWindow) : Except String Bool :=
  match w.start with
  | none => .error "KeyError: start"
  | some s =>
    if pyLe s current_time then
      match w.stop with
      | none => .error "KeyError: end"
      | some e => .ok (pyLe current_time e)
    else
      .ok false

/-- The `for window in day_schedule` loop: return `True` at the first window
containing the current time, `False` after the loop. -/
def anyWindow (current_time : String) : List DaypartingWindow → Except String Bool
  | [] => .ok false
  | w :: ws =>
    match windowCheck current_time w with
    | .error e => .error e
    | .ok true => .ok true
    | .ok false => anyWindow current_time ws

/-- `Campaign.is_within_dayparting_window` (`models.py` lines 80-97). -/
def Campaign.is_within_dayparting_window (now : Now) (c : Campaign) : Except String Bool :=
  if !c.dayparting_enabled then
    .ok true
  else
    anyWindow now.hhmm (dictGet c.dayparting_schedule now.weekday)

/-- `Campaign.should_be_active` (`models.py` lines 99-112), the pure predicate.
Python only calls `is_within_dayparting_window` when `dayparting_enabled`;
since the method returns `True` without touching the schedule when dayparting
is disabled, hoisting the call preserves both value and exceptions. -/
def Campaign.should_be_active (now : Now) (b : Brand) (c : Campaign) : Except String Bool :=
  if !b.is_active then
    .ok false
  else if b.daily_budget_exceeded || b.monthly_budget_exceeded then
    .ok false
  else
    match c.is_within_dayparting_window now with
    | .error e => .error e
    | .ok w =>
      if c.dayparting_enabled && !w then
        .ok false
      else
        .ok (!(c.status == CampaignStatus.INACTIVE || c.status == CampaignStatus.PAUSED))

/-- `Campaign.update_status` (`models.py` lines 114-127) on the in-memory
object: the branch cascade, then `save(update_fields=["status", "updated_at"])`
(`updated_at` is `auto_now`, embedded as `tick`).  A `KeyError` escaping the
dayparting evaluation propagates before the save. -/
def Campaign.update_status (now : Now) (tick : Nat) (b : Brand) (c : Campaign) :
    Except String Campaign :=
  if !b.is_active then
    .ok { c with status := CampaignStatus.INACTIVE, updated_at := tick }
  else if b.daily_budget_exceeded || b.monthly_budget_exceeded then
    .ok { c with status := CampaignStatus.BUDGET_EXCEEDED, updated_at := tick }
  else
    match c.is_within_dayparting_window now with
    | .error e => .error e
    | .ok w =>
      if c.dayparting_enabled && !w then
        .ok { c with status := CampaignStatus.DAYPARTING_PAUSED, updated_at := tick }
      else if c.status == CampaignStatus.BUDGET_EXCEEDED
          || c.status == CampaignStatus.DAYPARTING_PAUSED then
        .ok { c with status := CampaignStatus.ACTIVE, updated_at := tick }
      else
        .ok { c with updated_at := tick }

/-- The persistent store: lists of rows keyed by their `id` fields. -/
structure World where
  brands : List Brand
  campaigns : List Campaign
  spends : List AdSpend
deriving DecidableEq, Repr

/-- Fetch a brand row by primary key. -/
def World.getBrand (w : World) (bid : Nat) : Option Brand :=
  w.brands.find? (fun b => b.id == bid)

/-- Fetch a campaign row by primary key. -/
def World.getCampaign (w : World) (cid : Nat) : Option Campaign :=
  w.campaigns.find? (fun c => c.id == cid)

/-- `AdSpend.objects.filter(campaign=...)`: the spend events of a campaign. -/
def World.campaignSpends (w : World) (cid : Nat) : List AdSpend :=
  w.spends.filter (fun s => s.campaign_id == cid)

/-- `AdSpend.objects.filter(campaign__brand=...)`: the spend events of every
campaign owned by the brand (a join through the campaign table). -/
def World.brandSpends (w : World) (bid : Nat) : List AdSpend :=
  w.spends.filter (fun s =>
    match w.getCampaign s.campaign_id with
    | some c => c.brand_id == bid
    | none => false)

/-- The filter `timestamp__date=today`. -/
def dailySpends (today : Date) (l : List AdSpend) : List AdSpend :=
  l.filter (fun s => s.timestamp_date == today)

/-- The filter `timestamp__date__gte=current_month`. -/
def monthlySpends (monthStart : Date) (l : List AdSpend) : List AdSpend :=
  l.filter (fun s => Date.ble monthStart s.timestamp_date)

/-- `aggregate(total=Sum("amount"))["total"] or Decimal("0")`: the exact sum of
the amounts; `Sum` of an empty queryset is `None`, and `None or Decimal("0")`
is `0`, which is also the empty list's sum here (and `Decimal("0") or
Decimal("0")` is again `0`). -/
def sumAmounts (l : List AdSpend) : Int :=
  (l.map AdSpend.amount).sum

/-- `campaign.save(update_fields=["status", "updated_at"])`: write back only
the status and updated-at columns of the matching row. -/
def updateCampaignRow (cs : List Campaign) (c' : Campaign) : List Campaign :=
  cs.map (fun r =>
    if r.id == c'.id then { r with status := c'.status, updated_at := c'.updated_at } else r)

/-- `campaign.save(update_fields=["daily_spend", "monthly_spend", "updated_at"])`. -/
def updateCampaignSpendRow (cs : List Campaign) (cid : Nat) (d m : Int) (tick : Nat) :
    List Campaign :=
  cs.map (fun r =>
    if r.id == cid then { r with daily_spend := d, monthly_spend := m, updated_at := tick } else r)

/-- `brand.save(update_fields=["daily_spend", "monthly_spend", "updated_at"])`. -/
def updateBrandSpendRow (bs : List Brand) (bid : Nat) (d m : Int) (tick : Nat) :
    List Brand :=
  bs.map (fun r =>
    if r.id == bid then { r with daily_spend := d, monthly_spend := m, updated_at := tick } else r)

/-- `AdSpend.update_spend_totals` (`models.py` lines 149-182): recompute the
campaign's daily/monthly sums from its spend events and save them, then the
same for the owning brand across all its campaigns' events.  `c` is
`self.campaign` (already loaded on the instance). -/
def AdSpend.update_spend_totals (now : Now) (tick : Nat) (c : Campaign) (w : World) : World :=
  let today := now.date
  let current_month := now.date.firstOfMonth
  let daily_total := sumAmounts (dailySpends today (w.campaignSpends c.id))
  let monthly_total := sumAmounts (monthlySpends current_month (w.campaignSpends c.id))
  let w1 := { w with campaigns := updateCampaignSpendRow w.campaigns c.id daily_total monthly_total tick }
  let brand_daily_total := sumAmounts (dailySpends today (w1.brandSpends c.brand_id))
  let brand_monthly_total := sumAmounts (monthlySpends current_month (w1.brandSpends c.brand_id))
  { w1 with brands := updateBrandSpendRow w1.brands c.brand_id brand_daily_total brand_monthly_total tick }

/-- `record_ad_spend` (`utils.py` lines 22-36): look up the campaign (raising
`ValueError` when absent), `AdSpend.objects.create(...)` — whose `save`
override appends the new row and, because the row is new, runs
`update_spend_totals`; Django runs no field validators on `create`/`save`
(validators only run in `full_clean`), so the amount is persisted unchecked —
then `campaign.refresh_from_db()` (re-read the row and its brand) and
`campaign.update_status()`.  `sid` is the new row's generated primary key. -/
def record_ad_spend (now : Now) (tick sid : Nat) (w : World) (campaign_id : Nat)
    (amount : Int) (description : String) : Except String (AdSpend × World) :=
  match w.getCampaign campaign_id with
  | none => .error "ValueError: Campaign does not exist"
  | some c =>
    let s : AdSpend :=
      { id := sid, campaign_id := c.id, amount := amount,
        timestamp_date := now.date, description := description }
    let w1 := { w with spends := w.spends ++ [s] }
    let w2 := AdSpend.update_spend_totals now tick c w1
    match w2.getCampaign c.id with
    | none => .error "Campaign.DoesNotExist"
    | some cFresh =>
      match w2.getBrand cFresh.brand_id with
      | none => .error "RelatedObjectDoesNotExist"
      | some b =>
        match cFresh.update_status now tick b with
        | .error e => .error e
        | .ok c' => .ok (s, { w2 with campaigns := updateCampaignRow w2.campaigns c' })

/-- `evaluate_campaign`: the world-level run of `campaign.update_status()` on
the row `cid` — read the row and its brand, run the machine, and write back
only the status and updated-at columns. -/
def evaluate_campaign (now : Now) (tick : Nat) (w : World) (cid : Nat) : Except String World :=
  match w.getCampaign cid with
  | none => .error "Campaign.DoesNotExist"
  | some c =>
    match w.getBrand c.brand_id with
    | none => .error "RelatedObjectDoesNotExist"
    | some b =>
      match c.update_status now tick b with
      | .error e => .error e
      | .ok c' => .ok { w with campaigns := updateCampaignRow w.campaigns c' }

/-- The tally dictionary of `check_and_update_campaign_statuses`. -/
structure StatusChanges where
  activated : Nat
  budget_paused : Nat
  dayparting_paused : Nat
  deactivated : Nat
deriving DecidableEq, Repr

/-- `Campaign.STATUS_ACTIVE` as referenced by `tasks.py` line 44: the
`Campaign` model defines no attribute of this name (the status constants live
on `CampaignStatus` in `choices.py`), so the attribute lookup has no value and
raises `AttributeError` where it is forced. -/
def Campaign.STATUS_ACTIVE : Option CampaignStatus := none

/-- `Campaign.STATUS_BUDGET_EXCEEDED` (`tasks.py` line 46): not defined on the
model either. -/
def Campaign.STATUS_BUDGET_EXCEEDED : Option CampaignStatus := none

/-- `Campaign.STATUS_DAYPARTING_PAUSED` (`tasks.py` line 48): not defined on
the model either. -/
def Campaign.STATUS_DAYPARTING_PAUSED : Option CampaignStatus := none

/-- `Campaign.STATUS_INACTIVE` (`tasks.py` line 50): not defined on the model
either. -/
def Campaign.STATUS_INACTIVE : Option CampaignStatus := none

/-- The `if old_status != campaign.status:` tally block of
`check_and_update_campaign_statuses` (`tasks.py` lines 43-51).  Each branch
first forces the class attribute on the right of `==`, raising
`AttributeError` when it does not exist. -/
def tallyStep (sc : StatusChanges) (newStatus : CampaignStatus) : Except String StatusChanges :=
  match Campaign.STATUS_ACTIVE with
  | none => .error "AttributeError: type object Campaign has no attribute STATUS_ACTIVE"
  | some a =>
    if newStatus == a then .ok { sc with activated := sc.activated + 1 }
    else
      match Campaign.STATUS_BUDGET_EXCEEDED with
      | none => .error "AttributeError: type object Campaign has no attribute STATUS_BUDGET_EXCEEDED"
      | some bp =>
        if newStatus == bp then .ok { sc with budget_paused := sc.budget_paused + 1 }
        else
          match Campaign.STATUS_DAYPARTING_PAUSED with
          | none => .error "AttributeError: type object Campaign has no attribute STATUS_DAYPARTING_PAUSED"
          | some dp =>
            if newStatus == dp then .ok { sc with dayparting_paused := sc.dayparting_paused + 1 }
            else
              match Campaign.STATUS_INACTIVE with
              | none => .error "AttributeError: type object Campaign has no attribute STATUS_INACTIVE"
              | some ia =>
                if newStatus == ia then .ok { sc with deactivated := sc.deactivated + 1 }
                else .ok sc

/-- The per-campaign loop of `check_and_update_campaign_statuses`: run
`update_status` on each snapshot row (its brand is never written during the
sweep, so the lookup reads the same brand the `select_related` snapshot
loaded), and tally when the status changed. -/
def sweepGo (now : Now) (tick : Nat) :
    List Campaign → StatusChanges → World → Except String (StatusChanges × World)
  | [], sc, w => .ok (sc, w)
  | c :: rest, sc, w =>
    match w.getBrand c.brand_id with
    | none => .error "RelatedObjectDoesNotExist"
    | some b =>
      match c.update_status now tick b with
      | .error e => .error e
      | .ok c' =>
        let w' := { w with campaigns := updateCampaignRow w.campaigns c' }
        if c.status != c'.status then
          match tallyStep sc c'.status with
          | .error e => .error e
          | .ok sc' => sweepGo now tick rest sc' w'
        else
          sweepGo now tick rest sc w'

/-- `check_and_update_campaign_statuses` (`tasks.py` lines 31-54): iterate the
snapshot of all campaigns, update each status, and return the tally of
transitions. -/
def check_and_update_campaign_statuses (now : Now) (tick : Nat) (w : World) :
    Except String (StatusChanges × World) :=
  sweepGo now tick w.campaigns
    { activated := 0, budget_paused := 0, dayparting_paused := 0, deactivated := 0 } w

/-- The campaign loop of `recalculate_spend_totals` (`tasks.py` lines 66-80):
each campaign's daily/monthly sums are recomputed from its spend events (which
the loop never modifies) and saved. -/
def recalcCampaigns (today monthStart : Date) (tick : Nat) (w : World) : World :=
  { w with
    campaigns := w.campaigns.map (fun c =>
      { c with
        daily_spend := sumAmounts (dailySpends today (w.campaignSpends c.id)),
        monthly_spend := sumAmounts (monthlySpends monthStart (w.campaignSpends c.id)),
        updated_at := tick }) }

/-- The brand loop of `recalculate_spend_totals` (`tasks.py` lines 83-97). -/
def recalcBrands (today monthStart : Date) (tick : Nat) (w : World) : World :=
  { w with
    brands := w.brands.map (fun b =>
      { b with
        daily_spend := sumAmounts (dailySpends today (w.brandSpends b.id)),
        monthly_spend := sumAmounts (monthlySpends monthStart (w.brandSpends b.id)),
        updated_at := tick }) }

/-- `recalculate_spend_totals` (`tasks.py` lines 57-100): campaigns first,
then brands. -/
def recalculate_spend_totals (now : Now) (tick : Nat) (w : World) : World :=
  recalcBrands now.date now.date.firstOfMonth tick
    (recalcCampaigns now.date now.date.firstOfMonth tick w)

/-- The report printed by the `reset_monthly_budgets` command. -/
structure ResetReport where
  brands_updated : Nat
  campaigns_updated : Nat
  reactivated_count : Nat
deriving DecidableEq, Repr

/-- The per-campaign loop of `Command.handle` in `reset_monthly_budgets.py`
(lines 45-53).  The counting condition is
`old_status == BUDGET_EXCEEDED and (not dry_run and campaign.status == ACTIVE
or dry_run and campaign.should_be_active())` with Python's short-circuit
evaluation: in dry-run mode `update_status` is not called and
`should_be_active` is only evaluated when `old_status == BUDGET_EXCEEDED`. -/
def resetLoop (now : Now) (tick : Nat) (dry_run : Bool) :
    List Campaign → Nat → World → Except String (Nat × World)
  | [], cnt, w => .ok (cnt, w)
  | c :: rest, cnt, w =>
    if dry_run then
      if c.status == CampaignStatus.BUDGET_EXCEEDED then
        match w.getBrand c.brand_id with
        | none => .error "RelatedObjectDoesNotExist"
        | some b =>
          match c.should_be_active now b with
          | .error e => .error e
          | .ok sba => resetLoop now tick dry_run rest (if sba then cnt + 1 else cnt) w
      else
        resetLoop now tick dry_run rest cnt w
    else
      match w.getBrand c.brand_id with
      | none => .error "RelatedObjectDoesNotExist"
      | some b =>
        match c.update_status now tick b with
        | .error e => .error e
        | .ok c' =>
          let w' := { w with campaigns := updateCampaignRow w.campaigns c' }
          let cnt' :=
            if c.status == CampaignStatus.BUDGET_EXCEEDED
                && c'.status == CampaignStatus.ACTIVE then cnt + 1
            else cnt
          resetLoop now tick dry_run rest cnt' w'

/-- `Command.handle` of `reset_monthly_budgets.py` (lines 23-60).  Outside
dry-run, `Brand.objects.update(monthly_spend=0)` and
`Campaign.objects.update(monthly_spend=0)` bulk-write the one column (bulk
`update` bypasses `save`, so `auto_now` does not touch `updated_at`) and
return the row counts; in dry-run the counts are `count()` and nothing is
written.  Then the campaign loop runs over the snapshot fetched after the
bulk update. -/
def reset_monthly_budgets_handle (now : Now) (tick : Nat) (dry_run : Bool) (w : World) :
    Except String (ResetReport × World) :=
  let w1 :=
    if dry_run then w
    else
      { w with
        brands := w.brands.map (fun b => { b with monthly_spend := 0 }),
        campaigns := w.campaigns.map (fun c => { c with monthly_spend := 0 }) }
  match resetLoop now tick dry_run w1.campaigns 0 w1 with
  | .error e => .error e
  | .ok (cnt, w2) =>
    .ok ({ brands_updated := w.brands.length, campaigns_updated := w.campaigns.length,
           reactivated_count := cnt }, w2)

/-- Modelled from the spec's words (section 4.6 / scenario in section 8): the
per-campaign predicate whose count a dry run is said to report — currently
`BUDGET_EXCEEDED` and `should_be_active` holds against the stored state. -/
def wouldReactivate (now : Now) (w : World) (c : Campaign) : Bool :=
  c.status == CampaignStatus.BUDGET_EXCEEDED &&
    (match w.getBrand c.brand_id with
     | some b =>
       match Campaign.should_be_active now b c with
       | .ok v => v
       | .error _ => false
     | none => false)

/-- Side condition under which a dry run of the monthly reset cannot raise:
every `BUDGET_EXCEEDED` campaign has an existing brand and a dayparting
evaluation that does not raise. -/
def dryEvalOk (now : Now) (w : World) (c : Campaign) : Bool :=
  !(c.status == CampaignStatus.BUDGET_EXCEEDED) ||
    (match w.getBrand c.brand_id with
     | some b =>
       match Campaign.should_be_active now b c with
       | .ok _ => true
       | .error _ => false
     | none => false)

/-! Concrete rows and worlds used to instantiate the theorems below. -/

/-- A date used by the concrete examples. -/
def dEx : Date := { year := 2025, month := 10, day := 12 }

/-- A clock instant on that date (a Sunday), at 10:00. -/
def nowEx : Now := { date := dEx, weekday := "sunday", hhmm := "10:00" }

/-- An active brand with budget headroom (spend 20.00 of 100.00 daily,
20.00 of 1000.00 monthly). -/
def brandActive : Brand :=
  { id := 1, name := "b", daily_budget := 10000, monthly_budget := 100000,
    daily_spend := 2000, monthly_spend := 2000, is_active := true, updated_at := 0 }

/-- A plain active campaign of that brand, dayparting disabled. -/
def campaignBase : Campaign :=
  { id := 1, brand_id := 1, name := "c", status := CampaignStatus.ACTIVE,
    daily_spend := 2000, monthly_spend := 2000, dayparting_enabled := false,
    dayparting_schedule := [], updated_at := 0 }

/-- An inactive brand whose daily budget is also exceeded (spend 200.00 of
100.00). -/
def brandInactiveExceeded : Brand :=
  { id := 1, name := "b", daily_budget := 10000, monthly_budget := 100000,
    daily_spend := 20000, monthly_spend := 20000, is_active := false, updated_at := 0 }

/-- A dayparting-enabled campaign allowed 09:00-17:00 on Sundays. -/
def campaignDayparted : Campaign :=
  { campaignBase with
    dayparting_enabled := true,
    dayparting_schedule := [("sunday", [{ start := some "09:00", stop := some "17:00" }])] }

/-- The same clock instant at 20:00, outside the 09:00-17:00 window. -/
def nowAt2000 : Now := { nowEx with hhmm := "20:00" }

/-- Clock instants at the window boundaries and just outside them. -/
def nowAt0900 : Now := { nowEx with hhmm := "09:00" }

/-- 17:00, the inclusive right boundary. -/
def nowAt1700 : Now := { nowEx with hhmm := "17:00" }

/-- 08:59, just before the window. -/
def nowAt0859 : Now := { nowEx with hhmm := "08:59" }

/-- 17:01, just after the window. -/
def nowAt1701 : Now := { nowEx with hhmm := "17:01" }

/-- A manually paused campaign (operator override). -/
def campaignPaused : Campaign := { campaignBase with status := CampaignStatus.PAUSED }

/-- Three spend events of campaign 1, all dated `dEx`. -/
def spendA : AdSpend :=
  { id := 1, campaign_id := 1, amount := 2000, timestamp_date := dEx, description := "" }

/-- Second event, 10.99. -/
def spendB : AdSpend :=
  { id := 2, campaign_id := 1, amount := 1099, timestamp_date := dEx, description := "" }

/-- Third event, 0.01. -/
def spendC : AdSpend :=
  { id := 3, campaign_id := 1, amount := 1, timestamp_date := dEx, description := "" }

/-- World for the aggregation example: one brand, one campaign, three
same-day events (stale cached totals, to be recomputed). -/
def wAgg : World := { brands := [brandActive], campaigns := [campaignBase], spends := [spendA, spendB, spendC] }

/-- The campaign row expected after the batch recompute of `wAgg` at tick 3:
20.00 + 10.99 + 0.01 = 31.00 on both windows. -/
def rowAgg : Campaign := { campaignBase with daily_spend := 3100, monthly_spend := 3100, updated_at := 3 }

/-- World for the spend-recording example: one prior event of 20.00 today. -/
def wRec : World := { brands := [brandActive], campaigns := [campaignBase], spends := [spendA] }

/-- World for the sweep example in which a status transition happens: the
campaign is `ACTIVE` but its brand is inactive. -/
def wSweepChange : World := { brands := [brandInactiveExceeded], campaigns := [campaignBase], spends := [] }

/-- World for the sweep example in which no status changes. -/
def wSweepSame : World := { brands := [brandActive], campaigns := [campaignBase], spends := [] }

/-- A brand whose monthly budget is currently exceeded (500.00 of 100.00)
while its daily budget is fine; a monthly reset would clear `monthly_spend`. -/
def brandMonthlyExceeded : Brand :=
  { id := 1, name := "b", daily_budget := 10000, monthly_budget := 10000,
    daily_spend := 0, monthly_spend := 50000, is_active := true, updated_at := 0 }

/-- Campaign 1 of the reset scenario, currently `BUDGET_EXCEEDED`. -/
def campaignBE : Campaign :=
  { campaignBase with
    status := CampaignStatus.BUDGET_EXCEEDED, daily_spend := 0, monthly_spend := 50000 }

/-- Campaign 2 of the reset scenario, `ACTIVE`. -/
def campaignR2 : Campaign := { campaignBase with id := 2, daily_spend := 0, monthly_spend := 0 }

/-- Campaign 3 of the reset scenario, `ACTIVE`. -/
def campaignR3 : Campaign := { campaignBase with id := 3, daily_spend := 0, monthly_spend := 0 }

/-- The monthly-reset scenario world: a brand with 3 campaigns, one currently
`BUDGET_EXCEEDED`, the brand's `monthly_spend` nonzero (so a real reset would
clear it). -/
def wReset : World :=
  { brands := [brandMonthlyExceeded], campaigns := [campaignBE, campaignR2, campaignR3], spends := [] }

/-- The world expected after `evaluate_campaign` on campaign 1 of `wReset` at
tick 5: only row 1's status/updated-at columns are written. -/
def wResetEval : World :=
  { wReset with campaigns := [{ campaignBE with updated_at := 5 }, campaignR2, campaignR3] }

/-- A dayparting-enabled campaign whose Sunday window object lacks the
`"end"` key. -/
def campaignNoEnd : Campaign :=
  { campaignBase with
    dayparting_enabled := true,
    dayparting_schedule := [("sunday", [{ start := some "09:00", stop := none }])] }

/-- A dayparting-enabled campaign whose Sunday window object lacks the
`"start"` key. -/
def campaignNoStart : Campaign :=
  { campaignBase with
    dayparting_enabled := true,
    dayparting_schedule := [("sunday", [{ start := none, stop := some "17:00" }])] }

/-- A dayparting-enabled campaign whose schedule only has a `"monday"` key,
evaluated on a Sunday. -/
def campaignOtherDay : Campaign :=
  { campaignBase with
    dayparting_enabled := true,
    dayparting_schedule := [("monday", [{ start := some "09:00", stop := some "17:00" }])] }

deriving instance DecidableEq for Except

/-! Helper lemmas (shared). -/

/-- The dayparting evaluation ignores the status and updated-at fields. -/
theorem is_within_set_status (now : Now) (c : Campaign) (s : CampaignStatus) (t : Nat) :
    Campaign.is_within_dayparting_window now { c with status := s, updated_at := t } =
      Campaign.is_within_dayparting_window now c := rfl

/-- The dayparting evaluation ignores the updated-at field alone as well. -/
theorem is_within_set_tick (now : Now) (c : Campaign) (t : Nat) :
    Campaign.is_within_dayparting_window now { c with updated_at := t } =
      Campaign.is_within_dayparting_window now c := rfl

/-- On a list of fully-formed window objects the loop is exactly an inclusive
any-window containment test. -/
theorem anyWindow_map_wellformed (t : String) (ps : List (String × String)) :
    anyWindow t (ps.map (fun p =>
        ({ start := some p.1, stop := some p.2 } : DaypartingWindow))) =
      .ok (ps.any (fun p => pyLe p.1 t && pyLe t p.2)) := by
  induction ps with
  | nil => rfl
  | cons p ps ih =>
    simp only [List.map_cons, anyWindow, windowCheck, List.any_cons]
    by_cases h1 : pyLe p.1 t
    · by_cases h2 : pyLe t p.2
      · simp [h1, h2]
      · simp [h1, h2, ih]
    · simp [h1, ih]

/-- C1: for every campaign whose owning brand is inactive, the status machine
sets the status to `INACTIVE` — for every budget and dayparting state of the
inputs, so in particular also when a brand budget is exceeded and the campaign
is outside its dayparting window: the brand-inactive check precedes the budget
and dayparting checks and the reactivation step. -/
theorem c1_brand_inactive_wins (now : Now) (tick : Nat) (b : Brand) (c : Campaign)
    (h : b.is_active = false) :
    Campaign.update_status now tick b c =
      .ok { c with status := CampaignStatus.INACTIVE, updated_at := tick } := by
  simp [Campaign.update_status, h]

/-- C1 witness: a concrete inactive brand whose daily budget is also exceeded
and a campaign outside its dayparting window still comes out `INACTIVE`. -/
theorem c1_brand_inactive_wins_witness :
    brandInactiveExceeded.is_active = false ∧
    brandInactiveExceeded.daily_budget_exceeded = true ∧
    Campaign.is_within_dayparting_window nowAt2000 campaignDayparted = .ok false ∧
    Campaign.update_status nowAt2000 7 brandInactiveExceeded campaignDayparted =
      .ok { campaignDayparted with status := CampaignStatus.INACTIVE, updated_at := 7 } :=
  ⟨by decide, by decide, by decide,
    c1_brand_inactive_wins nowAt2000 7 brandInactiveExceeded campaignDayparted (by decide)⟩

/-- C3: a `PAUSED` campaign stays `PAUSED` through `update_status` whenever
the brand is active, neither brand budget is exceeded and the dayparting
evaluation allows the time (which includes dayparting being disabled): the
machine never auto-clears a manually set pause. -/
theorem c3_sticky_pause (now : Now) (tick : Nat) (b : Brand) (c : Campaign)
    (hp : c.status = CampaignStatus.PAUSED)
    (hb : b.is_active = true)
    (hd : b.daily_budget_exceeded = false)
    (hm : b.monthly_budget_exceeded = false)
    (hw : Campaign.is_within_dayparting_window now c = .ok true) :
    Campaign.update_status now tick b c = .ok { c with updated_at := tick } ∧
    ({ c with updated_at := tick } : Campaign).status = CampaignStatus.PAUSED := by
  refine ⟨?_, hp⟩
  simp [Campaign.update_status, hb, hd, hm, hw, hp]

/-- C3 witness: a concretely paused campaign under an active, in-budget brand
with dayparting disabled keeps status `PAUSED`. -/
theorem c3_sticky_pause_witness :
    Campaign.update_status nowEx 7 brandActive campaignPaused =
      .ok { campaignPaused with updated_at := 7 } ∧
    ({ campaignPaused with updated_at := 7 } : Campaign).status = CampaignStatus.PAUSED :=
  c3_sticky_pause nowEx 7 brandActive campaignPaused
    (by decide) (by decide) (by decide) (by decide) (by decide)

/-- C7 (amended): an unknown or absent weekday key in the dayparting schedule
is treated as zero windows — the evaluator returns `false` without raising.
(A window object missing its `start` or `end` field, by contrast, raises
`KeyError` when the field is read; see the counterexample.) -/
theorem c7_unknown_day_is_closed (now : Now) (c : Campaign)
    (he : c.dayparting_enabled = true)
    (hd : c.dayparting_schedule.lookup now.weekday = none) :
    Campaign.is_within_dayparting_window now c = .ok false := by
  simp [Campaign.is_within_dayparting_window, he, dictGet, hd, anyWindow]

/-- C7 witness: a schedule with only a `"monday"` entry, evaluated on a
Sunday, yields `false` without an error. -/
theorem c7_unknown_day_is_closed_witness :
    Campaign.is_within_dayparting_window nowEx campaignOtherDay = .ok false :=
  c7_unknown_day_is_closed nowEx campaignOtherDay (by decide) (by decide)

/-- C7 counterexample: a window object missing its `end` field raises
`KeyError` (once its `start` bound admits the current time), and one missing
its `start` field raises `KeyError` outright — refuting that malformed window
entries are treated as zero windows and never raise. -/
theorem c7_missing_field_raises :
    Campaign.is_within_dayparting_window nowEx campaignNoEnd = .error "KeyError: end" ∧
    Campaign.is_within_dayparting_window nowEx campaignNoStart = .error "KeyError: start" ∧
    Campaign.is_within_dayparting_window nowEx campaignNoEnd ≠ .ok false := by
  exact ⟨by decide, by decide, by decide⟩

/-- C8: for a dayparting-enabled campaign whose windows for the current
weekday are fully formed, the evaluator returns exactly whether some window
satisfies `start <= now <= end` under lexical string comparison, both bounds
inclusive. -/
theorem c8_window_containment (now : Now) (c : Campaign) (ps : List (String × String))
    (he : c.dayparting_enabled = true)
    (hs : dictGet c.dayparting_schedule now.weekday =
      ps.map (fun p => ({ start := some p.1, stop := some p.2 } : DaypartingWindow))) :
    Campaign.is_within_dayparting_window now c =
      .ok (ps.any (fun p => pyLe p.1 now.hhmm && pyLe now.hhmm p.2)) := by
  rw [Campaign.is_within_dayparting_window, he]
  simp only [Bool.not_true, Bool.false_eq_true, if_false, hs]
  exact anyWindow_map_wellformed now.hhmm ps

/-- C8 witness: the window 09:00-17:00 includes the boundary times "09:00"
and "17:00" and excludes "08:59" and "17:01". -/
theorem c8_window_containment_witness :
    Campaign.is_within_dayparting_window nowAt0900 campaignDayparted = .ok true ∧
    Campaign.is_within_dayparting_window nowAt1700 campaignDayparted = .ok true ∧
    Campaign.is_within_dayparting_window nowAt0859 campaignDayparted = .ok false ∧
    Campaign.is_within_dayparting_window nowAt1701 campaignDayparted = .ok false := by
  refine ⟨?_, ?_, ?_, ?_⟩ <;>
    rw [c8_window_containment _ campaignDayparted [("09:00", "17:00")] (by decide) (by decide)] <;>
    decide

/-- The batch recompute rewrites each campaign row from its own events. -/
theorem recalc_campaigns_eq (now : Now) (tick : Nat) (w : World) :
    (recalculate_spend_totals now tick w).campaigns =
      w.campaigns.map (fun c =>
        { c with
          daily_spend := sumAmounts (dailySpends now.date (w.campaignSpends c.id)),
          monthly_spend := sumAmounts (monthlySpends now.date.firstOfMonth (w.campaignSpends c.id)),
          updated_at := tick }) := rfl

/-- The per-spend recompute writes the campaign's sums into its row. -/
theorem update_totals_campaigns_eq (now : Now) (tick : Nat) (c : Campaign) (w : World) :
    (AdSpend.update_spend_totals now tick c w).campaigns =
      updateCampaignSpendRow w.campaigns c.id
        (sumAmounts (dailySpends now.date (w.campaignSpends c.id)))
        (sumAmounts (monthlySpends now.date.firstOfMonth (w.campaignSpends c.id))) tick := rfl

/-- C2: after either recompute (the batch `recalculate_spend_totals` or the
per-spend `AdSpend.update_spend_totals`), the campaign's row holds
`monthly_spend` equal to the exact sum of its events dated on or after the
first of the current month, and — when all of the campaign's events are dated
on the current day — `daily_spend` equal to the exact sum of all of its
events' amounts. -/
theorem c2_aggregate_correctness (now : Now) (tick : Nat) (w : World) (cid : Nat) :
    (∀ r ∈ (recalculate_spend_totals now tick w).campaigns, r.id = cid →
        r.monthly_spend = sumAmounts (monthlySpends now.date.firstOfMonth (w.campaignSpends cid)) ∧
        ((∀ s ∈ w.campaignSpends cid, s.timestamp_date = now.date) →
          r.daily_spend = sumAmounts (w.campaignSpends cid))) ∧
    (∀ c : Campaign, c.id = cid →
      ∀ r ∈ (AdSpend.update_spend_totals now tick c w).campaigns, r.id = cid →
        r.monthly_spend = sumAmounts (monthlySpends now.date.firstOfMonth (w.campaignSpends cid)) ∧
        ((∀ s ∈ w.campaignSpends cid, s.timestamp_date = now.date) →
          r.daily_spend = sumAmounts (w.campaignSpends cid))) := by
  have hfilter : ∀ i : Nat, i = cid → (∀ s ∈ w.campaignSpends cid, s.timestamp_date = now.date) →
      dailySpends now.date (w.campaignSpends i) = w.campaignSpends i := by
    intro i hi hday
    subst hi
    exact List.filter_eq_self.mpr (fun s hs => by rw [hday s hs]; exact beq_self_eq_true _)
  constructor
  · intro r hr hid
    rw [recalc_campaigns_eq, List.mem_map] at hr
    obtain ⟨a, ha, rfl⟩ := hr
    have hid' : a.id = cid := hid
    constructor
    · show sumAmounts (monthlySpends now.date.firstOfMonth (w.campaignSpends a.id)) = _
      rw [hid']
    · intro hday
      show sumAmounts (dailySpends now.date (w.campaignSpends a.id)) = _
      rw [hfilter a.id hid' hday, hid']
  · intro c hc r hr hid
    rw [update_totals_campaigns_eq, updateCampaignSpendRow, List.mem_map] at hr
    obtain ⟨a, ha, rfl⟩ := hr
    by_cases hae : a.id == c.id
    · simp only [hae, if_true]
      constructor
      · show sumAmounts (monthlySpends now.date.firstOfMonth (w.campaignSpends c.id)) = _
        rw [hc]
      · intro hday
        show sumAmounts (dailySpends now.date (w.campaignSpends c.id)) = _
        rw [hfilter c.id hc hday, hc]
    · exfalso
      simp only [hae, if_false] at hid
      exact hae (beq_iff_eq.mpr (hid.trans hc.symm))

/-- C2 witness: three same-day events of 20.00, 10.99 and 0.01 batch-recompute
to a row holding exactly 31.00 on both windows. -/
theorem c2_aggregate_correctness_witness :
    rowAgg.monthly_spend =
      sumAmounts (monthlySpends nowEx.date.firstOfMonth (wAgg.campaignSpends 1)) ∧
    rowAgg.daily_spend = sumAmounts (wAgg.campaignSpends 1) := by
  have h := (c2_aggregate_correctness nowEx 3 wAgg 1).1 rowAgg (by decide) (by decide)
  exact ⟨h.1, h.2 (by decide)⟩

/-- C4: `record_ad_spend` does not reject a strictly negative amount — the
claim that it fails with a validation error, creates no event and leaves all
state unchanged is violated by the code.  At a concrete world with one prior
20.00 event, recording -5.00 succeeds, appends the event, and drags the
campaign's and brand's cached daily spends down to 15.00 (and status is
re-evaluated).  An amount of exactly zero is likewise accepted.  (Django
model-field validators such as `MinValueValidator(0)` run only in
`full_clean`, never on `objects.create`/`save`, and `record_ad_spend` does
not validate.) -/
theorem c4_negative_spend_not_rejected :
    (record_ad_spend nowEx 5 2 wRec 1 (-500) "").map (fun p => p.1.amount) = .ok (-500) ∧
    (record_ad_spend nowEx 5 2 wRec 1 (-500) "").map (fun p => p.2.spends.length) = .ok 2 ∧
    (record_ad_spend nowEx 5 2 wRec 1 (-500) "").map
      (fun p => p.2.campaigns.map Campaign.daily_spend) = .ok [1500] ∧
    (record_ad_spend nowEx 5 2 wRec 1 (-500) "").map
      (fun p => p.2.brands.map Brand.daily_spend) = .ok [1500] ∧
    (record_ad_spend nowEx 5 2 wRec 1 0 "").map (fun p => p.1.amount) = .ok 0 :=
  ⟨by decide, by decide, by decide, by decide, by decide⟩

/-- C5: the status sweep does not return a tally whenever some campaign
changes status — it raises `AttributeError`, because the tally block compares
against `Campaign.STATUS_ACTIVE` etc., attributes the `Campaign` model never
defines (the constants live on `CampaignStatus`).  At a concrete world whose
one campaign transitions (`ACTIVE` under an inactive brand), the sweep
errors; at a world with no transition the dead tally block is never reached
and the sweep returns the all-zero tally. -/
theorem c5_sweep_raises_on_transition :
    check_and_update_campaign_statuses nowEx 1 wSweepChange =
      .error "AttributeError: type object Campaign has no attribute STATUS_ACTIVE" ∧
    (check_and_update_campaign_statuses nowEx 1 wSweepSame).map (fun p => p.1) =
      .ok { activated := 0, budget_paused := 0, dayparting_paused := 0, deactivated := 0 } :=
  ⟨by decide, by decide⟩

/-- The dry-run campaign loop of the monthly reset writes nothing and counts
exactly the `BUDGET_EXCEEDED` campaigns whose `should_be_active` (against the
stored, un-reset spends) returns true. -/
theorem resetLoop_dry (now : Now) (tick : Nat) (w : World) :
    ∀ (cs : List Campaign) (cnt : Nat), (∀ c ∈ cs, dryEvalOk now w c = true) →
      resetLoop now tick true cs cnt w =
        .ok (cnt + cs.countP (fun c => wouldReactivate now w c), w) := by
  intro cs
  induction cs with
  | nil => intro cnt h; simp [resetLoop, List.countP_nil]
  | cons c rest ih =>
    intro cnt h
    have hc := h c (List.mem_cons_self c rest)
    have hrest := fun x hx => h x (List.mem_cons_of_mem c hx)
    rw [List.countP_cons]
    by_cases hbe : c.status == CampaignStatus.BUDGET_EXCEEDED
    · rw [dryEvalOk] at hc
      simp only [hbe, Bool.not_true, Bool.false_or] at hc
      cases hgb : w.getBrand c.brand_id with
      | none => simp [hgb] at hc
      | some b =>
        simp only [hgb] at hc
        cases hsb : Campaign.should_be_active now b c with
        | error e => simp [hsb] at hc
        | ok v =>
          have hwr : wouldReactivate now w c = v := by
            rw [wouldReactivate]; simp [hbe, hgb, hsb]
          rw [resetLoop]
          simp only [hbe, ite_true, hgb, hsb]
          rw [ih _ hrest, hwr]
          simp only [Except.ok.injEq, Prod.mk.injEq]
          refine ⟨?_, trivial⟩
          cases v
          · simp
          · simp
            omega
    · have hwr : wouldReactivate now w c = false := by
        rw [wouldReactivate]; simp [hbe]
      rw [resetLoop]
      simp only [hbe, ite_false]
      rw [ih _ hrest, hwr]
      simp

/-- C6 (amended): the monthly reset's dry-run mode makes zero persisted
changes — it returns the input world unchanged — and reports the would-be
reactivation count computed via `should_be_active` evaluated against the
current, *un-reset* stored spends (so a campaign that is `BUDGET_EXCEEDED`
because its brand's monthly budget is currently exceeded is NOT counted,
even though a real reset would reactivate it; the dry run therefore reports 0
in the claim's scenario, not 1 — see the counterexample). -/
theorem c6_dry_run_no_writes (now : Now) (tick : Nat) (w : World)
    (hok : ∀ c ∈ w.campaigns, dryEvalOk now w c = true) :
    reset_monthly_budgets_handle now tick true w =
      .ok ({ brands_updated := w.brands.length,
             campaigns_updated := w.campaigns.length,
             reactivated_count := w.campaigns.countP (fun c => wouldReactivate now w c) }, w) := by
  rw [reset_monthly_budgets_handle]
  simp only [ite_true]
  rw [resetLoop_dry now tick w w.campaigns 0 hok]
  simp

/-- C6 witness: the dry run on the reset scenario world returns the world
unchanged and the report (1 brand, 3 campaigns, 0 would-reactivate). -/
theorem c6_dry_run_no_writes_witness :
    reset_monthly_budgets_handle nowEx 9 true wReset =
      .ok ({ brands_updated := 1, campaigns_updated := 3, reactivated_count := 0 }, wReset) :=
  (c6_dry_run_no_writes nowEx 9 wReset (by decide)).trans (by decide)

/-- C6 counterexample: in the claim's own scenario — a brand with 3
campaigns, one currently `BUDGET_EXCEEDED`, the brand's `monthly_spend`
nonzero and cleared by a real reset (which indeed reactivates 1) — the dry
run reports 0 "would reactivate", not 1. -/
theorem c6_dry_run_scenario_reports_zero :
    wReset.campaigns.length = 3 ∧
    wReset.campaigns.countP (fun c => c.status == CampaignStatus.BUDGET_EXCEEDED) = 1 ∧
    brandMonthlyExceeded.monthly_spend ≠ 0 ∧
    (reset_monthly_budgets_handle nowEx 9 false wReset).map
      (fun p => p.1.reactivated_count) = .ok 1 ∧
    (reset_monthly_budgets_handle nowEx 9 true wReset).map
      (fun p => p.1.reactivated_count) = .ok 0 ∧
    (reset_monthly_budgets_handle nowEx 9 true wReset).map
      (fun p => p.1.reactivated_count) ≠ .ok 1 :=
  ⟨by decide, by decide, by decide, by decide, by decide, by decide⟩

/-- C9: the status machine is idempotent on the status field — if one run of
`update_status` succeeds and yields a campaign, a second run under the same
brand, spends and clock succeeds and leaves the status as the first run set
it (only the updated-at marker is written again). -/
theorem c9_idempotent (now : Now) (tick tick' : Nat) (b : Brand) (c c1 : Campaign)
    (h : Campaign.update_status now tick b c = .ok c1) :
    Campaign.update_status now tick' b c1 = .ok { c1 with updated_at := tick' } ∧
    ({ c1 with updated_at := tick' } : Campaign).status = c1.status := by
  refine ⟨?_, rfl⟩
  cases hb : b.is_active with
  | false =>
    simp only [Campaign.update_status, hb, Bool.not_false, ite_true] at h ⊢
    obtain rfl := (Except.ok.inj h).symm
    rfl
  | true =>
    cases hex : b.daily_budget_exceeded || b.monthly_budget_exceeded with
    | true =>
      simp only [Campaign.update_status, hb, Bool.not_true, ite_false, hex, ite_true] at h ⊢
      obtain rfl := (Except.ok.inj h).symm
      rfl
    | false =>
      cases hw : Campaign.is_within_dayparting_window now c with
      | error e =>
        simp [Campaign.update_status, hb, hex, hw] at h
      | ok wv =>
        by_cases hdp : c.dayparting_enabled && !wv
        · simp [Campaign.update_status, hb, hex, hw, hdp] at h
          obtain rfl := h.symm
          simp [Campaign.update_status, hb, hex, is_within_set_status, hw, hdp]
        · by_cases hst : c.status == CampaignStatus.BUDGET_EXCEEDED
              || c.status == CampaignStatus.DAYPARTING_PAUSED
          · simp [Campaign.update_status, hb, hex, hw, hdp, hst] at h
            obtain rfl := h.symm
            simp [Campaign.update_status, hb, hex, is_within_set_status, hw, hdp]
          · simp [Campaign.update_status, hb, hex, hw, hdp, hst] at h
            obtain rfl := h.symm
            simp [Campaign.update_status, hb, hex, is_within_set_tick, hw, hdp, hst]

/-- C9 witness: a `BUDGET_EXCEEDED` campaign under a monthly-exceeded brand
stays `BUDGET_EXCEEDED` on the second run. -/
theorem c9_idempotent_witness :
    Campaign.update_status nowEx 6 brandMonthlyExceeded { campaignBE with updated_at := 4 } =
      .ok { { campaignBE with updated_at := 4 } with updated_at := 6 } ∧
    ({ { campaignBE with updated_at := 4 } with updated_at := 6 } : Campaign).status =
      ({ campaignBE with updated_at := 4 } : Campaign).status :=
  c9_idempotent nowEx 4 6 brandMonthlyExceeded campaignBE
    { campaignBE with updated_at := 4 } (by decide)

/-- C10: an evaluation run writes only the campaign's status and updated-at
columns — the brand rows and the spend events are untouched, and every
campaign row (row for row) keeps its id, brand, name, cached spends and
dayparting configuration. -/
theorem c10_frame (now : Now) (tick : Nat) (w : World) (cid : Nat) (w' : World)
    (h : evaluate_campaign now tick w cid = .ok w') :
    w'.brands = w.brands ∧ w'.spends = w.spends ∧
    List.Forall₂ (fun r r' =>
      r'.id = r.id ∧ r'.brand_id = r.brand_id ∧ r'.name = r.name ∧
      r'.daily_spend = r.daily_spend ∧ r'.monthly_spend = r.monthly_spend ∧
      r'.dayparting_enabled = r.dayparting_enabled ∧
      r'.dayparting_schedule = r.dayparting_schedule) w.campaigns w'.campaigns := by
  unfold evaluate_campaign at h
  cases hc : w.getCampaign cid with
  | none => simp only [hc] at h; simp at h
  | some c =>
    simp only [hc] at h
    cases hbr : w.getBrand c.brand_id with
    | none => simp only [hbr] at h; simp at h
    | some b =>
      simp only [hbr] at h
      cases hu : Campaign.update_status now tick b c with
      | error e => simp only [hu] at h; simp at h
      | ok c' =>
        simp only [hu] at h
        obtain rfl := (Except.ok.inj h).symm
        refine ⟨rfl, rfl, ?_⟩
        rw [show (({ w with campaigns := updateCampaignRow w.campaigns c' } : World)).campaigns =
          updateCampaignRow w.campaigns c' from rfl]
        rw [updateCampaignRow, List.forall₂_map_right_iff, List.forall₂_same]
        intro a ha
        by_cases hid : a.id == c'.id
        · simp [hid]
        · simp [hid]

/-- C10 witness: evaluating campaign 1 of the reset scenario world leaves the
brand rows and spend events identical. -/
theorem c10_frame_witness :
    wResetEval.brands = wReset.brands ∧ wResetEval.spends = wReset.spends :=
  ⟨(c10_frame nowEx 5 wReset 1 wResetEval (by decide)).1,
   (c10_frame nowEx 5 wReset 1 wResetEval (by decide)).2.1⟩

end BudgetPlanner
